import Mathlib

set_option maxRecDepth 8000

/-
Verification development for the AIStudioBuildWS session supervisor.

The Python sources under src/ are shallowly embedded: Python strings are Lean
Strings manipulated through explicit character lists (so every operation is
structurally recursive and kernel-computable), Python dicts with a fixed field
set become structures with Option fields (none = key absent), exceptions become
Except / explicit outcome types, and the filesystem / environment / JSON parser
are passed in as explicit data.
-/

/- ### Python string primitives (character-list based) -/

/-- Strip ASCII whitespace from both ends of a character list (Python str.strip). -/
def stripCharsL (l : List Char) : List Char :=
  ((l.dropWhile Char.isWhitespace).reverse.dropWhile Char.isWhitespace).reverse

/-- Python str.strip on strings. -/
def pyStrip (s : String) : String :=
  String.mk (stripCharsL s.data)

/-- Python str.lower. -/
def pyLower (s : String) : String :=
  String.mk (s.data.map Char.toLower)

/-- Python str.capitalize: first character upper-cased, the rest lower-cased. -/
def pyCapitalize (s : String) : String :=
  match s.data with
  | [] => ""
  | c :: rest => String.mk (c.toUpper :: rest.map Char.toLower)

/-- Split a character list on a separator character (Python str.split(sep)). -/
def splitOnCharL (sep : Char) : List Char → List (List Char)
  | [] => [[]]
  | c :: rest =>
    let r := splitOnCharL sep rest
    if c = sep then [] :: r
    else
      match r with
      | [] => [[c]]
      | seg :: segs => (c :: seg) :: segs

/-- Python str.split(sep) on strings. -/
def pySplitChar (sep : Char) (s : String) : List String :=
  (splitOnCharL sep s.data).map String.mk

/-- Split at the first occurrence of a separator character (Python
str.split(sep, 1)); the second component is none when the separator is absent. -/
def splitFirstCharL (sep : Char) : List Char → List Char × Option (List Char)
  | [] => ([], none)
  | c :: cs =>
    if c = sep then ([], some cs)
    else
      let r := splitFirstCharL sep cs
      (c :: r.1, r.2)

/-- Boolean list-prefix test. -/
def isPrefixCharsL : List Char → List Char → Bool
  | [], _ => true
  | _ :: _, [] => false
  | p :: ps, c :: cs => p = c && isPrefixCharsL ps cs

/-- Boolean substring test on character lists. -/
def isInfixCharsL (pat : List Char) : List Char → Bool
  | [] => isPrefixCharsL pat []
  | c :: cs => isPrefixCharsL pat (c :: cs) || isInfixCharsL pat cs

/-- Python membership test sub in s for strings. -/
def pyContains (s sub : String) : Bool :=
  isInfixCharsL sub.data s.data

/-- Python str.endswith. -/
def pyEndsWith (s suf : String) : Bool :=
  isPrefixCharsL suf.data.reverse s.data.reverse

/-- Remainder of a character list after the first occurrence of a pattern;
none when the pattern does not occur. -/
def dropThroughL (pat : List Char) : List Char → Option (List Char)
  | [] => if isPrefixCharsL pat [] then some [] else none
  | c :: cs =>
    if isPrefixCharsL pat (c :: cs) then some ((c :: cs).drop pat.length)
    else dropThroughL pat cs

/-- Python int() applied to a (rational-valued) number: truncation toward zero. -/
def pyInt (q : Rat) : Int :=
  Int.tdiv q.num (q.den : Int)

/- ### Data model: cookies (src/utils/cookie_handler.py) -/

/-- One element of a Cookie-Editor export list (a Python dict); none means the
key is absent. -/
structure EditorCookie where
  name : Option String := none
  value : Option String := none
  domain : Option String := none
  path : Option String := none
  httpOnly : Option Bool := none
  secure : Option Bool := none
  session : Option Bool := none
  expirationDate : Option (Option Rat) := none
  sameSite : Option String := none
  deriving Repr, DecidableEq

/-- A Playwright cookie record as built by the converters (a Python dict);
none means the key is absent. -/
structure PwCookie where
  name : Option String := none
  value : Option String := none
  domain : Option String := none
  path : Option String := none
  httpOnly : Option Bool := none
  secure : Option Bool := none
  expires : Option Int := none
  sameSite : Option String := none
  deriving Repr, DecidableEq

/-- Body of the per-element loop of convert_cookie_editor_to_playwright
(src/utils/cookie_handler.py lines 9-28): field copy-through, expiry policy,
SameSite mapping. -/
def convert_one_editor_cookie (c : EditorCookie) : PwCookie :=
  let pw : PwCookie :=
    { name := c.name, value := c.value, domain := c.domain, path := c.path,
      httpOnly := c.httpOnly, secure := c.secure }
  let pw :=
    if c.session.getD false then { pw with expires := some (-1) }
    else
      match c.expirationDate with
      | some (some q) => { pw with expires := some (pyInt q) }
      | some none => { pw with expires := some (-1) }
      | none => pw
  match c.sameSite with
  | some raw =>
    let v := pyLower raw
    if v = "no_restriction" then { pw with sameSite := some "None" }
    else if v = "lax" || v = "strict" then { pw with sameSite := some (pyCapitalize v) }
    else if v = "unspecified" then { pw with sameSite := some "Lax" }
    else pw
  | none => pw

/-- convert_cookie_editor_to_playwright (src/utils/cookie_handler.py lines 1-36):
convert each element, keep only records in which name, value, domain and path
are all present. -/
def convert_cookie_editor_to_playwright (cs : List EditorCookie) : List PwCookie :=
  cs.filterMap fun c =>
    let pw := convert_one_editor_cookie c
    if pw.name.isSome && pw.value.isSome && pw.domain.isSome && pw.path.isSome
    then some pw else none

/-- convert_kv_to_playwright (src/utils/cookie_handler.py lines 39-97): split the
string on semicolons, strip each segment, skip empty segments and segments
without an equals sign, split on the first equals sign, skip empty names, and
emit a record with the caller-supplied default domain and fixed defaults. -/
def convert_kv_to_playwright (kv_string : String) (default_domain : String) :
    List PwCookie :=
  (splitOnCharL ';' kv_string.data).filterMap fun seg =>
    let pair := stripCharsL seg
    if pair.isEmpty then none
    else if ¬ isInfixCharsL ['='] pair then none
    else
      let split := splitFirstCharL '=' pair
      let name := String.mk (stripCharsL split.1)
      let value := String.mk (stripCharsL (split.2.getD []))
      if name = "" then none
      else
        some { name := some name, value := some value,
               domain := some default_domain, path := some "/",
               expires := some (-1), httpOnly := some false,
               secure := some true, sameSite := some "Lax" }

/-- Input to the auto-detecting converter: a Python value that is a list of
cookie dicts, a string, or anything else (carrying its type name). -/
inductive CookieData where
  | list (cs : List EditorCookie)
  | str (s : String)
  | other (typeName : String)
  deriving Repr, DecidableEq

/-- Errors raised by the cookie pipeline. -/
inductive CookieError where
  | formatError (typeName : String)
  | sourceUnavailable (what : String)
  deriving Repr, DecidableEq

/-- auto_convert_to_playwright (src/utils/cookie_handler.py lines 100-147):
lists go to the exported-cookie converter, strings are stripped (empty result
short-circuits to the empty list) and go to the KV converter, anything else
raises ValueError. -/
def auto_convert_to_playwright (cookie_data : CookieData)
    (default_domain : String) : Except CookieError (List PwCookie) :=
  match cookie_data with
  | .list cs => .ok (convert_cookie_editor_to_playwright cs)
  | .str s =>
    let cookie_str := pyStrip s
    if cookie_str = "" then .ok []
    else .ok (convert_kv_to_playwright cookie_str default_domain)
  | .other typeName => .error (.formatError typeName)

/-- One decimal digit as a character. -/
def digitChar : Nat → Char
  | 0 => '0' | 1 => '1' | 2 => '2' | 3 => '3' | 4 => '4'
  | 5 => '5' | 6 => '6' | 7 => '7' | 8 => '8' | _ => '9'

/-- Numeric value of a decimal digit character. -/
def digitVal (c : Char) : Nat :=
  c.toNat - 48

/-- Decimal digits of a number, most significant first; fuel only makes the
recursion structural (fuel = n + 1 is always enough since n / 10 shrinks). -/
def natDigitsAux : Nat → Nat → List Char
  | 0, _ => []
  | fuel + 1, n =>
    if n < 10 then [digitChar n]
    else natDigitsAux fuel (n / 10) ++ [digitChar (n % 10)]

/-- Decimal rendering of a natural number (what a Python f-string interpolates
for an int). -/
def natToString (n : Nat) : String :=
  String.mk (natDigitsAux (n + 1) n)

/- ### Data model: cookie sources (src/utils/cookie_manager.py) -/

/-- CookieSource dataclass (src/utils/cookie_manager.py lines 14-22). -/
structure CookieSource where
  type : String
  identifier : String
  display_name : String
  deriving Repr, DecidableEq

/-- String form of a CookieSource, used as the cache key (the dataclass
method on src/utils/cookie_manager.py lines 21-22). -/
def cookieSourceKey (s : CookieSource) : String :=
  s.type ++ ":" ++ s.identifier

/-- The ambient world the manager reads: the credentials directory (listing
order preserved, with file contents), the process environment, and the outcome
of the standard-library JSON parser on any given text (json.loads is external
library code, so it enters the model as an oracle; none = JSONDecodeError). -/
structure Sys where
  dirExists : Bool
  files : List (String × String)
  vars : List (String × String)
  jsonParse : String → Option CookieData

/-- Modelled from the spec: clean_env_value lives in utils/common.py, which is
not under src/. The spec only requires that a missing or empty environment
value count as unavailable, so cleaning is modelled as stripping whitespace,
with a missing variable cleaning to the empty string. -/
def clean_env_value (v : Option String) : String :=
  pyStrip (v.getD "")

/-- Mutable state of a CookieManager instance (src/utils/cookie_manager.py
lines 31-34): the cached source list and the per-source cookie cache. -/
structure CookieManagerState where
  detected_sources : Option (List CookieSource) := none
  cookie_cache : List (String × List PwCookie) := []

/-- A file-backed source as built by detect_all_sources. -/
def mkFileSource (filename : String) : CookieSource :=
  { type := "file", identifier := filename, display_name := filename }

/-- The probed environment-variable name for index i. -/
def userCookieName (i : Nat) : String :=
  "USER_COOKIE_" ++ natToString i

/-- An environment-variable source as built by detect_all_sources. -/
def mkEnvSource (i : Nat) : CookieSource :=
  { type := "env_var", identifier := userCookieName i,
    display_name := userCookieName i }

/-- The while-loop of detect_all_sources (src/utils/cookie_manager.py lines
73-93): probe USER_COOKIE_i starting at index i, stopping at the first index
whose cleaned value is empty. The loop always terminates because a non-empty
cleaned value requires the probed name to occur in the finite environment and
the probed names are pairwise distinct, so fuel = number of environment entries
plus one is enough; fuel is threaded only to make the recursion structural. -/
def probeEnvSources (sys : Sys) : Nat → Nat → List CookieSource
  | 0, _ => []
  | fuel + 1, i =>
    if clean_env_value (sys.vars.lookup (userCookieName i)) = "" then []
    else mkEnvSource i :: probeEnvSources sys fuel (i + 1)

/-- The file-scanning half of detect_all_sources (src/utils/cookie_manager.py
lines 46-70): if the credentials directory exists, every file whose lower-cased
name ends in .json, in directory-listing order. -/
def scanFileSources (sys : Sys) : List CookieSource :=
  if sys.dirExists then
    ((sys.files.map Prod.fst).filter fun f => pyEndsWith (pyLower f) ".json").map mkFileSource
  else []

/-- detect_all_sources (src/utils/cookie_manager.py lines 36-100): return the
cached list when present; otherwise scan files, then probe environment
variables from index 1, cache and return. -/
def detect_all_sources (sys : Sys) (st : CookieManagerState) :
    List CookieSource × CookieManagerState :=
  match st.detected_sources with
  | some sources => (sources, st)
  | none =>
    let sources := scanFileSources sys ++
      probeEnvSources sys (sys.vars.length + 1) 1
    (sources, { st with detected_sources := some sources })

/-- CookieManager._load_from_file (src/utils/cookie_manager.py lines 145-172):
missing file raises FileNotFoundError; otherwise read and strip the content,
try JSON first, fall back to treating the stripped text as KV format. -/
def load_from_file (sys : Sys) (filename : String) :
    Except CookieError (List PwCookie) :=
  match sys.files.lookup filename with
  | none => .error (.sourceUnavailable filename)
  | some content =>
    let file_content := pyStrip content
    match sys.jsonParse file_content with
    | some parsed => auto_convert_to_playwright parsed ".google.com"
    | none => auto_convert_to_playwright (.str file_content) ".google.com"

/-- CookieManager._load_from_env (src/utils/cookie_manager.py lines 174-198):
a missing or empty (cleaned) variable raises ValueError; otherwise try JSON
first, fall back to treating the value as KV format. -/
def load_from_env (sys : Sys) (env_var_name : String) :
    Except CookieError (List PwCookie) :=
  let env_value := clean_env_value (sys.vars.lookup env_var_name)
  if env_value = "" then .error (.sourceUnavailable env_var_name)
  else
    match sys.jsonParse env_value with
    | some parsed => auto_convert_to_playwright parsed ".google.com"
    | none => auto_convert_to_playwright (.str env_value) ".google.com"

/-- CookieManager.load_cookies (src/utils/cookie_manager.py lines 102-143):
serve from the cache when possible; otherwise dispatch on the source type, and
on success cache the result. An unknown type returns the empty list without
caching; any raised error is caught, logged, and turned into the empty list
without caching. -/
def load_cookies (sys : Sys) (st : CookieManagerState) (source : CookieSource) :
    List PwCookie × CookieManagerState :=
  let cache_key := cookieSourceKey source
  match st.cookie_cache.lookup cache_key with
  | some cached => (cached, st)
  | none =>
    if source.type = "file" then
      match load_from_file sys source.identifier with
      | .ok cookies =>
        (cookies, { st with cookie_cache := (cache_key, cookies) :: st.cookie_cache })
      | .error _ => ([], st)
    else if source.type = "env_var" then
      match load_from_env sys source.identifier with
      | .ok cookies =>
        (cookies, { st with cookie_cache := (cache_key, cookies) :: st.cookie_cache })
      | .error _ => ([], st)
    else ([], st)

/- ### Session state machine (src/browser/instance.py, navigation.py,
     cookie_validator.py) -/

/-- Outcome of page.goto inside one navigation attempt, mirroring the except
clauses of src/browser/instance.py lines 98-155: success with a final URL (read
after the 2-second settle), TimeoutError, or a Playwright network error. -/
inductive GotoResult where
  | ok (finalUrl : String)
  | timeout
  | netError (msg : String)
  deriving Repr, DecidableEq

/-- The page-driver observations one navigation attempt can make: the goto
outcome, the time (ms) at which the loading spinner becomes hidden (none =
never), and the visibility of the auth-error banner and the two login buttons. -/
structure PageAttempt where
  goto : GotoResult
  spinnerHiddenAt : Option Nat := none
  authBannerVisible : Bool := false
  loginCnVisible : Bool := false
  loginEnVisible : Bool := false
  deriving Repr, DecidableEq

/-- How the body of one Camoufox attempt ends (src/browser/instance.py lines
85-237): a plain return (terminal for this attempt, tagged with the return
site), a raised KeepAliveError (handled by the backoff loop), or entry into
the keep-alive phase. -/
inductive AttemptOutcome where
  | terminal (reason : String)
  | raiseKeepAlive (msg : String)
  | keepAlive
  deriving Repr, DecidableEq

/-- Modelled from the spec: utils/url_helper.py (extract_url_path) is not under
src/. The spec compares the path portions of the expected and final URLs, so
the helper is modelled as dropping the scheme (everything through the first
occurrence of the separator) and the host (everything before the first slash
of the remainder), keeping the path and query. -/
def extract_url_path (url : String) : String :=
  let rest := (dropThroughL "://".data url.data).getD url.data
  String.mk (rest.dropWhile fun c => ¬ c = '/')

/-- The expected path computed by the attempt (src/browser/instance.py line
172): the path portion of the expected URL with the query split off. -/
def expectedPathOf (expected_url : String) : String :=
  ((splitOnCharL '?' (extract_url_path expected_url).data).headD []).asString

/-- The spinner wait of src/browser/instance.py lines 180-189: wait_for
hidden-state with a 30000 ms timeout succeeds exactly when the spinner becomes
hidden within 30000 ms. -/
def spinnerCleared (spinnerHiddenAt : Option Nat) : Bool :=
  match spinnerHiddenAt with
  | some t => t ≤ 30000
  | none => false

/-- One navigation attempt, src/browser/instance.py lines 97-232: goto with its
timeout / network-error handlers (both return), the identifier-page check, the
path-match classification with spinner wait (timeout raises KeepAliveError),
the auth-banner and login-button checks, the account-chooser check, and the
unexpected-URL fallthrough. -/
def navigation_attempt (expected_url : String) (pa : PageAttempt) :
    AttemptOutcome :=
  match pa.goto with
  | .timeout => .terminal "navigation timeout"
  | .netError _ => .terminal "navigation network error"
  | .ok final_url =>
    if pyContains final_url "accounts.google.com/v3/signin/identifier" then
      .terminal "identifier signin page"
    else
      let expected_path := expectedPathOf expected_url
      let final_path := extract_url_path final_url
      if ¬ expected_path = "" ∧ pyContains final_path expected_path then
        if spinnerCleared pa.spinnerHiddenAt then
          if pa.authBannerVisible then .terminal "auth error banner"
          else if pa.loginCnVisible || pa.loginEnVisible then
            .terminal "login button visible"
          else .keepAlive
        else .raiseKeepAlive "spinner timeout"
      else if pyContains final_url "accounts.google.com/v3/signin/accountchooser" then
        .terminal "account chooser page"
      else .terminal "unexpected URL"

/-- Outcome of the secondary-page validation navigation as observed by
CookieValidator.validate_cookies_in_main_thread (src/browser/cookie_validator.py
lines 30-69): success with a final URL, TimeoutError, PlaywrightError, or any
other exception. -/
inductive NavOutcome where
  | ok (finalUrl : String)
  | timeout
  | netError (msg : String)
  | otherError (msg : String)
  deriving Repr, DecidableEq

/-- CookieValidator.validate_cookies_in_main_thread (src/browser/
cookie_validator.py lines 23-69): a completed navigation is invalid exactly
when the final URL is the identifier or account-chooser sign-in page; every
exception path returns invalid. -/
def validate_cookies_in_main_thread (nav : NavOutcome) : Bool :=
  match nav with
  | .ok final_url =>
    if pyContains final_url "accounts.google.com/v3/signin/identifier" then false
    else if pyContains final_url "accounts.google.com/v3/signin/accountchooser" then false
    else true
  | .timeout => false
  | .netError _ => false
  | .otherError _ => false

/-- One tick of the keep-alive loop of handle_successful_navigation
(src/browser/navigation.py lines 73-111): the shutdown flag as read this
iteration, whether the page click succeeded, and what the out-of-band
validation navigation would observe if it ran this tick. -/
structure KeepAliveTick where
  shutdownSet : Bool := false
  clickOk : Bool := true
  validationNav : NavOutcome := .ok ""
  deriving Repr, DecidableEq

/-- How a run of the keep-alive loop ends: graceful shutdown-signal exit,
sys.exit(1) via shutdown_instance_on_cookie_failure, a raised KeepAliveError
from a failed interaction, or still running with the given click counter after
the supplied trace is exhausted. -/
inductive KeepAliveResult where
  | shutdownExit
  | cookieFailure
  | keepAliveRaise
  | running (counter : Nat)
  deriving Repr, DecidableEq

/-- The keep-alive loop of handle_successful_navigation (src/browser/
navigation.py lines 73-111), run over an explicit trace of ticks: check the
shutdown flag, click (an interaction error raises KeepAliveError), bump the
counter, and at 360 run the out-of-band validation - failure calls
shutdown_instance_on_cookie_failure (sys.exit(1)), success resets the counter. -/
def keep_alive_loop (counter : Nat) : List KeepAliveTick → KeepAliveResult
  | [] => .running counter
  | t :: rest =>
    if t.shutdownSet then .shutdownExit
    else if ¬ t.clickOk then .keepAliveRaise
    else
      let counter := counter + 1
      if counter ≥ 360 then
        if validate_cookies_in_main_thread t.validationNav then
          keep_alive_loop 0 rest
        else .cookieFailure
      else keep_alive_loop counter rest

/-- How the body of one iteration of the outer while-loop of
run_browser_instance ends, as seen by its except clauses (src/browser/
instance.py lines 239-263): a plain return, a raised KeepAliveError, a
KeyboardInterrupt, a SystemExit (sys.exit from the validator), or any other
exception. -/
inductive InstanceEvent where
  | normalExit
  | keepAliveError (msg : String)
  | keyboardInterrupt
  | systemExit (code : Int)
  | unexpectedError (msg : String)
  deriving Repr, DecidableEq

/-- What the outer loop decides after one iteration: stop (return from
run_browser_instance, no further launch) or sleep for the given delay and
launch again with the given retry count. -/
inductive LoopDecision where
  | stop
  | retryAfter (delay : Nat) (newRetryCount : Nat)
  deriving Repr, DecidableEq

/-- The base delay of the exponential backoff (src/browser/instance.py line 76). -/
def base_delay : Nat := 3

/-- The except clauses of the outer while-loop of run_browser_instance
(src/browser/instance.py lines 239-263): only KeepAliveError re-enters the
loop, after bumping the retry count, giving up once it exceeds max_retries,
and sleeping min(base_delay * 2 ^ (retry_count - 1), 60); every other way the
body ends makes the function return. -/
def handle_instance_event (max_retries retry_count : Nat) :
    InstanceEvent → LoopDecision
  | .keepAliveError _ =>
    let retry_count := retry_count + 1
    if retry_count > max_retries then .stop
    else .retryAfter (min (base_delay * 2 ^ (retry_count - 1)) 60) retry_count
  | .normalExit => .stop
  | .keyboardInterrupt => .stop
  | .systemExit _ => .stop
  | .unexpectedError _ => .stop

/- ### Helper lemmas: editor-cookie converter -/

/-- The converter copies name, value, domain and path through unchanged: the
expiry and SameSite steps never touch those fields. -/
theorem convert_one_copies_fields (c : EditorCookie) :
    (convert_one_editor_cookie c).name = c.name ∧
    (convert_one_editor_cookie c).value = c.value ∧
    (convert_one_editor_cookie c).domain = c.domain ∧
    (convert_one_editor_cookie c).path = c.path := by
  rcases he : c.expirationDate with _ | (_ | q) <;>
    rcases hss : c.sameSite with _ | raw <;>
    cases hs : c.session.getD false <;>
    simp [convert_one_editor_cookie, he, hss, hs] <;>
    (try (split_ifs <;> simp))

/-- Every record emitted by the list-level converter is the converted image of
some input element, and passed the four-field presence check. -/
theorem mem_convert_cookie_editor (cs : List EditorCookie) (pw : PwCookie)
    (h : pw ∈ convert_cookie_editor_to_playwright cs) :
    ∃ c ∈ cs, pw = convert_one_editor_cookie c ∧
      pw.name.isSome ∧ pw.value.isSome ∧ pw.domain.isSome ∧ pw.path.isSome := by
  unfold convert_cookie_editor_to_playwright at h
  obtain ⟨c, hc, hfc⟩ := List.mem_filterMap.mp h
  dsimp only at hfc
  refine ⟨c, hc, ?_⟩
  by_cases hcond :
      ((convert_one_editor_cookie c).name.isSome &&
        (convert_one_editor_cookie c).value.isSome &&
        (convert_one_editor_cookie c).domain.isSome &&
        (convert_one_editor_cookie c).path.isSome) = true
  · rw [if_pos hcond] at hfc
    cases hfc
    simp only [Bool.and_eq_true] at hcond
    exact ⟨rfl, hcond.1.1.1, hcond.1.1.2, hcond.1.2, hcond.2⟩
  · rw [if_neg hcond] at hfc
    cases hfc

/-- The SameSite step in isolation: with a present source value the resulting
field is determined by the lower-cased value. -/
theorem convert_one_sameSite_of_some (c : EditorCookie) (s : String)
    (h : c.sameSite = some s) :
    (convert_one_editor_cookie c).sameSite =
      (if pyLower s = "no_restriction" then some "None"
       else if pyLower s = "lax" || pyLower s = "strict" then some (pyCapitalize (pyLower s))
       else if pyLower s = "unspecified" then some "Lax"
       else none) := by
  rcases he : c.expirationDate with _ | (_ | q) <;>
    cases hs : c.session.getD false <;>
    simp only [convert_one_editor_cookie, h, he, hs] <;>
    split_ifs <;> simp_all

/-- The SameSite step in isolation: with no source value the field stays absent. -/
theorem convert_one_sameSite_of_none (c : EditorCookie)
    (h : c.sameSite = none) :
    (convert_one_editor_cookie c).sameSite = none := by
  rcases he : c.expirationDate with _ | (_ | q) <;>
    cases hs : c.session.getD false <;>
    simp only [convert_one_editor_cookie, h, he, hs] <;>
    split_ifs <;> rfl

/-- The expiry step in isolation: the sameSite step never touches expires. -/
theorem convert_one_expires (c : EditorCookie) :
    (convert_one_editor_cookie c).expires =
      (if c.session.getD false then some (-1)
       else
        match c.expirationDate with
        | some (some q) => some (pyInt q)
        | some none => some (-1)
        | none => none) := by
  rcases he : c.expirationDate with _ | (_ | q) <;>
    rcases hss : c.sameSite with _ | raw <;>
    cases hs : c.session.getD false <;>
    simp [convert_one_editor_cookie, he, hss, hs] <;>
    (try (split_ifs <;> simp))

/-- Claim C1 is false as stated: an element that lacks both the session flag
and the expirationDate field is emitted with no expires field at all, not with
expires = -1. -/
theorem C1_counterexample :
    ¬ ∀ pw ∈ convert_cookie_editor_to_playwright
        [{ name := some "a", value := some "b", domain := some "c",
           path := some "/" }],
      pw.expires = some (-1) := by decide

/-- Claim C1 (amended): per input element the normalizer sets expires = -1 when
the element marks itself a session cookie, or when it carries an expiration
field that is null; a non-null numeric expiration on a non-session element is
cast to an integer (truncation toward zero); an element that neither marks
itself a session cookie nor carries an expiration field yields a record with
the expires field absent (not -1). Every emitted record is the converted image
of some input element. -/
theorem C1_expiry_policy :
    (∀ cs : List EditorCookie, ∀ pw ∈ convert_cookie_editor_to_playwright cs,
      ∃ c ∈ cs, pw = convert_one_editor_cookie c) ∧
    (∀ c : EditorCookie,
      (c.session.getD false = true →
        (convert_one_editor_cookie c).expires = some (-1)) ∧
      (c.session.getD false = false → c.expirationDate = some none →
        (convert_one_editor_cookie c).expires = some (-1)) ∧
      (∀ q : Rat, c.session.getD false = false → c.expirationDate = some (some q) →
        (convert_one_editor_cookie c).expires = some (pyInt q)) ∧
      (c.session.getD false = false → c.expirationDate = none →
        (convert_one_editor_cookie c).expires = none)) := by
  constructor
  · intro cs pw h
    obtain ⟨c, hc, hcv, _⟩ := mem_convert_cookie_editor cs pw h
    exact ⟨c, hc, hcv⟩
  · intro c
    have he := convert_one_expires c
    refine ⟨fun h1 => ?_, fun h1 h2 => ?_, fun q h1 h2 => ?_, fun h1 h2 => ?_⟩ <;>
      rw [he] <;> simp [h1] <;> simp [h2]

/-- Witness for C1_expiry_policy at concrete cookies: a session cookie, a
null expiration, the numeric expiration 5, and a cookie with neither field. -/
theorem C1_expiry_policy_witness :
    (∃ c ∈ [({ name := some "a", value := some "b", domain := some "c",
               path := some "/", session := some true } : EditorCookie)],
      convert_one_editor_cookie
        { name := some "a", value := some "b", domain := some "c",
          path := some "/", session := some true } = convert_one_editor_cookie c) ∧
    (convert_one_editor_cookie
      ({ session := some true } : EditorCookie)).expires = some (-1) ∧
    (convert_one_editor_cookie
      ({ expirationDate := some none } : EditorCookie)).expires = some (-1) ∧
    (convert_one_editor_cookie
      ({ expirationDate := some (some (5 : Rat)) } : EditorCookie)).expires =
        some (pyInt 5) ∧
    (convert_one_editor_cookie ({ } : EditorCookie)).expires = none :=
  ⟨C1_expiry_policy.1 _ _ (by decide),
   (C1_expiry_policy.2 _).1 rfl,
   (C1_expiry_policy.2 _).2.1 rfl rfl,
   (C1_expiry_policy.2 _).2.2.1 5 rfl rfl,
   (C1_expiry_policy.2 _).2.2.2 rfl rfl⟩

/-- Claim C2 is false as stated: an element whose name key is present but maps
to the empty string is emitted with that empty name, not dropped (the code
checks key presence, not non-emptiness). -/
theorem C2_counterexample :
    ∃ pw ∈ convert_cookie_editor_to_playwright
        [{ name := some "", value := some "v", domain := some "d",
           path := some "/" }],
      pw.name = some "" := by decide

/-- Claim C2 (amended): every record emitted by the exported-cookie converter
has name, value, domain and path present (they may be empty strings); any
element missing one of those four keys is dropped and never emitted. -/
theorem C2_required_fields :
    (∀ cs : List EditorCookie, ∀ pw ∈ convert_cookie_editor_to_playwright cs,
      pw.name.isSome ∧ pw.value.isSome ∧ pw.domain.isSome ∧ pw.path.isSome) ∧
    (∀ c : EditorCookie,
      (c.name = none ∨ c.value = none ∨ c.domain = none ∨ c.path = none) →
      convert_cookie_editor_to_playwright [c] = []) := by
  constructor
  · intro cs pw h
    obtain ⟨_, _, _, h1, h2, h3, h4⟩ := mem_convert_cookie_editor cs pw h
    exact ⟨h1, h2, h3, h4⟩
  · intro c hc
    obtain ⟨hn, hv, hd, hp⟩ := convert_one_copies_fields c
    unfold convert_cookie_editor_to_playwright
    rcases hc with h | h | h | h <;>
      simp [List.filterMap_cons, hn, hv, hd, hp, h]

/-- Witness for C2_required_fields: a complete element is emitted with all four
fields present; an element missing its name is dropped. -/
theorem C2_required_fields_witness :
    ((convert_one_editor_cookie
        ({ name := some "n", value := some "v", domain := some "d",
           path := some "/" } : EditorCookie)).name.isSome ∧
      (convert_one_editor_cookie
        ({ name := some "n", value := some "v", domain := some "d",
           path := some "/" } : EditorCookie)).value.isSome ∧
      (convert_one_editor_cookie
        ({ name := some "n", value := some "v", domain := some "d",
           path := some "/" } : EditorCookie)).domain.isSome ∧
      (convert_one_editor_cookie
        ({ name := some "n", value := some "v", domain := some "d",
           path := some "/" } : EditorCookie)).path.isSome) ∧
    convert_cookie_editor_to_playwright
      [{ value := some "v", domain := some "d", path := some "/" }] = [] :=
  ⟨C2_required_fields.1
      [{ name := some "n", value := some "v", domain := some "d",
         path := some "/" }]
      (convert_one_editor_cookie
        { name := some "n", value := some "v", domain := some "d",
          path := some "/" })
      (by decide),
    C2_required_fields.2 _ (Or.inl rfl)⟩

/-- Claim C4 is false as stated: mapping no_restriction yields sameSite = None,
but feeding a record already mapped to None back through the normalizer drops
the field entirely instead of mapping it to None again. -/
theorem C4_counterexample :
    ((convert_cookie_editor_to_playwright
        [{ name := some "n", value := some "v", domain := some "d",
           path := some "/", sameSite := some "no_restriction" }]).map
      (fun pw => pw.sameSite) = [some "None"]) ∧
    ((convert_cookie_editor_to_playwright
        [{ name := some "n", value := some "v", domain := some "d",
           path := some "/", sameSite := some "None" }]).map
      (fun pw => pw.sameSite) = [none]) := by decide

/-- Claim C4 (amended): the SameSite mapping is total - after lower-casing,
no_restriction maps to None, lax to Lax, strict to Strict, unspecified to Lax,
and any other value (a missing field included) leaves the field absent; it is
idempotent on the Lax and Strict outputs and on absent fields, but re-applying
it to a record already mapped to None leaves the field absent, not None. -/
theorem C4_sameSite_mapping :
    (∀ c : EditorCookie, c.sameSite = none →
      (convert_one_editor_cookie c).sameSite = none) ∧
    (∀ c : EditorCookie, ∀ s : String, c.sameSite = some s →
      (convert_one_editor_cookie c).sameSite =
        (if pyLower s = "no_restriction" then some "None"
         else if pyLower s = "lax" then some "Lax"
         else if pyLower s = "strict" then some "Strict"
         else if pyLower s = "unspecified" then some "Lax"
         else none)) ∧
    (∀ c : EditorCookie, c.sameSite = some "Lax" →
      (convert_one_editor_cookie c).sameSite = some "Lax") ∧
    (∀ c : EditorCookie, c.sameSite = some "Strict" →
      (convert_one_editor_cookie c).sameSite = some "Strict") ∧
    (∀ c : EditorCookie, c.sameSite = some "None" →
      (convert_one_editor_cookie c).sameSite = none) := by
  have key : ∀ (c : EditorCookie) (s : String), c.sameSite = some s →
      (convert_one_editor_cookie c).sameSite =
        (if pyLower s = "no_restriction" then some "None"
         else if pyLower s = "lax" then some "Lax"
         else if pyLower s = "strict" then some "Strict"
         else if pyLower s = "unspecified" then some "Lax"
         else none) := by
    intro c s h
    rw [convert_one_sameSite_of_some c s h]
    by_cases h1 : pyLower s = "no_restriction"
    · simp [h1]
    · by_cases h2 : pyLower s = "lax"
      · simp [h1, h2]
        decide
      · by_cases h3 : pyLower s = "strict"
        · simp [h1, h2, h3]
          decide
        · by_cases h4 : pyLower s = "unspecified"
          · simp [h1, h2, h3, h4]
          · simp [h1, h2, h3, h4]
  refine ⟨convert_one_sameSite_of_none, key, fun c h => ?_, fun c h => ?_, fun c h => ?_⟩ <;>
    rw [key c _ h] <;> decide

/-- Witness for C4_sameSite_mapping at concrete cookies: a missing field stays
absent, unspecified maps to Lax, and the three already-mapped outputs. -/
theorem C4_sameSite_mapping_witness :
    (convert_one_editor_cookie ({ } : EditorCookie)).sameSite = none ∧
    (convert_one_editor_cookie
      ({ sameSite := some "unspecified" } : EditorCookie)).sameSite =
        (if pyLower "unspecified" = "no_restriction" then some "None"
         else if pyLower "unspecified" = "lax" then some "Lax"
         else if pyLower "unspecified" = "strict" then some "Strict"
         else if pyLower "unspecified" = "unspecified" then some "Lax"
         else none) ∧
    (convert_one_editor_cookie
      ({ sameSite := some "Lax" } : EditorCookie)).sameSite = some "Lax" ∧
    (convert_one_editor_cookie
      ({ sameSite := some "Strict" } : EditorCookie)).sameSite = some "Strict" ∧
    (convert_one_editor_cookie
      ({ sameSite := some "None" } : EditorCookie)).sameSite = none :=
  ⟨C4_sameSite_mapping.1 _ rfl,
   C4_sameSite_mapping.2.1 _ "unspecified" rfl,
   C4_sameSite_mapping.2.2.1 _ rfl,
   C4_sameSite_mapping.2.2.2.1 _ rfl,
   C4_sameSite_mapping.2.2.2.2 _ rfl⟩

/-- Claim C9: the delimited-string parser emits only records carrying the
caller-supplied default domain and the fixed defaults path = /, expires = -1,
httpOnly = false, secure = true, sameSite = Lax; and on the three
representative inputs it splits on semicolons, trims, skips empty segments and
segments without an equals sign or with an empty trimmed name, and splits only
on the first equals sign. -/
theorem C9_kv_parsing :
    (∀ kv dd : String, ∀ pw ∈ convert_kv_to_playwright kv dd,
      pw.domain = some dd ∧ pw.path = some "/" ∧ pw.expires = some (-1) ∧
      pw.httpOnly = some false ∧ pw.secure = some true ∧
      pw.sameSite = some "Lax") ∧
    (∀ dd : String, (convert_kv_to_playwright "a=1; b=2;; c=3" dd).map
      (fun pw => (pw.name, pw.value)) =
      [(some "a", some "1"), (some "b", some "2"), (some "c", some "3")]) ∧
    (∀ dd : String, convert_kv_to_playwright "=x; y" dd = []) ∧
    (∀ dd : String, (convert_kv_to_playwright "k=v1=v2" dd).map
      (fun pw => (pw.name, pw.value)) = [(some "k", some "v1=v2")]) := by
  refine ⟨?_, fun dd => rfl, fun dd => rfl, fun dd => rfl⟩
  intro kv dd pw h
  unfold convert_kv_to_playwright at h
  obtain ⟨seg, hseg, hf⟩ := List.mem_filterMap.mp h
  dsimp only at hf
  split_ifs at hf
  all_goals cases hf
  all_goals exact ⟨rfl, rfl, rfl, rfl, rfl, rfl⟩

/-- Witness for C9_kv_parsing: membership discharged on a concrete input. -/
theorem C9_kv_parsing_witness :
    ∀ pw ∈ convert_kv_to_playwright "a=1" ".google.com",
      pw.domain = some ".google.com" ∧ pw.path = some "/" ∧
      pw.expires = some (-1) ∧ pw.httpOnly = some false ∧
      pw.secure = some true ∧ pw.sameSite = some "Lax" :=
  C9_kv_parsing.1 "a=1" ".google.com"

/-- All-whitespace strings strip to the empty string. -/
theorem pyStrip_eq_empty_of_whitespace (s : String)
    (h : ∀ c ∈ s.data, c.isWhitespace) : pyStrip s = "" := by
  unfold pyStrip stripCharsL
  have h1 : s.data.dropWhile Char.isWhitespace = [] := by
    simp [List.dropWhile_eq_nil_iff]
    exact h
  rw [h1]
  rfl

/-- Claim C10: on any string input that is empty or all whitespace, the
auto-detecting converter returns the empty list successfully - it
short-circuits after stripping, without invoking the delimited parser and
without raising a format error. -/
theorem C10_blank_string (s dd : String) (h : ∀ c ∈ s.data, c.isWhitespace) :
    auto_convert_to_playwright (.str s) dd = .ok [] := by
  have h1 : pyStrip s = "" := pyStrip_eq_empty_of_whitespace s h
  simp [auto_convert_to_playwright, h1]

/-- Witness for C10_blank_string on a concrete whitespace-only string. -/
theorem C10_blank_string_witness :
    auto_convert_to_playwright (.str "  \t ") ".google.com" = .ok [] :=
  C10_blank_string "  \t " ".google.com" (by decide)

/-- Claim C3: a file source whose file is absent, and an environment source
whose variable is unset or cleans to empty, fail inside the loader with a
SourceUnavailable error; load_cookies catches that error and returns the empty
list with the manager state unchanged, so the failure is fatal to that source
only and any other source loads exactly as it would have without the failure. -/
theorem C3_source_unavailable :
    (∀ (sys : Sys) (f : String), sys.files.lookup f = none →
      load_from_file sys f = .error (.sourceUnavailable f)) ∧
    (∀ (sys : Sys) (n : String), clean_env_value (sys.vars.lookup n) = "" →
      load_from_env sys n = .error (.sourceUnavailable n)) ∧
    (∀ (sys : Sys) (st : CookieManagerState) (src : CookieSource),
      st.cookie_cache.lookup (cookieSourceKey src) = none →
      src.type = "file" → sys.files.lookup src.identifier = none →
      load_cookies sys st src = ([], st)) ∧
    (∀ (sys : Sys) (st : CookieManagerState) (src : CookieSource),
      st.cookie_cache.lookup (cookieSourceKey src) = none →
      src.type = "env_var" → clean_env_value (sys.vars.lookup src.identifier) = "" →
      load_cookies sys st src = ([], st)) ∧
    (∀ (sys : Sys) (st : CookieManagerState) (src src2 : CookieSource),
      st.cookie_cache.lookup (cookieSourceKey src) = none →
      src.type = "file" → sys.files.lookup src.identifier = none →
      load_cookies sys (load_cookies sys st src).2 src2 =
        load_cookies sys st src2) := by
  have hfile : ∀ (sys : Sys) (f : String), sys.files.lookup f = none →
      load_from_file sys f = .error (.sourceUnavailable f) := by
    intro sys f h
    unfold load_from_file
    rw [h]
  have henv : ∀ (sys : Sys) (n : String), clean_env_value (sys.vars.lookup n) = "" →
      load_from_env sys n = .error (.sourceUnavailable n) := by
    intro sys n h
    unfold load_from_env
    rw [if_pos h]
  have hloadf : ∀ (sys : Sys) (st : CookieManagerState) (src : CookieSource),
      st.cookie_cache.lookup (cookieSourceKey src) = none →
      src.type = "file" → sys.files.lookup src.identifier = none →
      load_cookies sys st src = ([], st) := by
    intro sys st src hc ht hf
    simp [load_cookies, hc, ht, hfile sys src.identifier hf]
  refine ⟨hfile, henv, hloadf, ?_, ?_⟩
  · intro sys st src hc ht he
    simp [load_cookies, hc, ht, henv sys src.identifier he]
  · intro sys st src src2 hc ht hf
    rw [hloadf sys st src hc ht hf]

/-- Witness for C3_source_unavailable: an empty world in which a file source
and an environment source are both unavailable, and a second load after the
failed one behaves identically. -/
theorem C3_source_unavailable_witness :
    load_from_file
      { dirExists := true, files := [], vars := [], jsonParse := fun _ => none }
      "a.json" = .error (.sourceUnavailable "a.json") ∧
    load_from_env
      { dirExists := true, files := [], vars := [], jsonParse := fun _ => none }
      "USER_COOKIE_1" = .error (.sourceUnavailable "USER_COOKIE_1") ∧
    load_cookies
      { dirExists := true, files := [], vars := [], jsonParse := fun _ => none }
      { } (mkFileSource "a.json") = ([], { }) ∧
    load_cookies
      { dirExists := true, files := [], vars := [], jsonParse := fun _ => none }
      { } (mkEnvSource 1) = ([], { }) ∧
    load_cookies
      { dirExists := true, files := [], vars := [], jsonParse := fun _ => none }
      (load_cookies
        { dirExists := true, files := [], vars := [], jsonParse := fun _ => none }
        { } (mkFileSource "a.json")).2 (mkEnvSource 1) =
      load_cookies
        { dirExists := true, files := [], vars := [], jsonParse := fun _ => none }
        { } (mkEnvSource 1) :=
  ⟨C3_source_unavailable.1 _ "a.json" rfl,
   C3_source_unavailable.2.1 _ "USER_COOKIE_1" rfl,
   C3_source_unavailable.2.2.1 _ _ (mkFileSource "a.json") rfl rfl rfl,
   C3_source_unavailable.2.2.2.1 _ _ (mkEnvSource 1) rfl rfl rfl,
   C3_source_unavailable.2.2.2.2 _ _ (mkFileSource "a.json") (mkEnvSource 1) rfl rfl rfl⟩

/-- Claim C7: for base delay 3 and cap 60 the backoff after a retryable
failure is min(3 * 2 ^ (retry_count - 1), 60) computed on the incremented
retry count, giving 3, 6, 12, 24, 48, 60 for attempts 1 through 6, with the
cap held for every later attempt; and once the retry count would exceed
max_retries the handler stops without another launch. -/
theorem C7_backoff :
    (∀ (max_retries retry_count : Nat) (m : String),
      retry_count < max_retries →
      handle_instance_event max_retries retry_count (.keepAliveError m) =
        .retryAfter (min (3 * 2 ^ retry_count) 60) (retry_count + 1)) ∧
    (∀ m : String,
      handle_instance_event 100 0 (.keepAliveError m) = .retryAfter 3 1 ∧
      handle_instance_event 100 1 (.keepAliveError m) = .retryAfter 6 2 ∧
      handle_instance_event 100 2 (.keepAliveError m) = .retryAfter 12 3 ∧
      handle_instance_event 100 3 (.keepAliveError m) = .retryAfter 24 4 ∧
      handle_instance_event 100 4 (.keepAliveError m) = .retryAfter 48 5 ∧
      handle_instance_event 100 5 (.keepAliveError m) = .retryAfter 60 6) ∧
    (∀ (max_retries retry_count : Nat) (m : String),
      5 ≤ retry_count → retry_count < max_retries →
      handle_instance_event max_retries retry_count (.keepAliveError m) =
        .retryAfter 60 (retry_count + 1)) ∧
    (∀ (max_retries retry_count : Nat) (m : String),
      max_retries ≤ retry_count →
      handle_instance_event max_retries retry_count (.keepAliveError m) = .stop) := by
  have h1 : ∀ (max_retries retry_count : Nat) (m : String),
      retry_count < max_retries →
      handle_instance_event max_retries retry_count (.keepAliveError m) =
        .retryAfter (min (3 * 2 ^ retry_count) 60) (retry_count + 1) := by
    intro mr rc m h
    simp only [handle_instance_event, base_delay]
    rw [if_neg (by omega)]
    simp
  refine ⟨h1, fun m => ⟨rfl, rfl, rfl, rfl, rfl, rfl⟩, ?_, ?_⟩
  · intro mr rc m h5 hlt
    rw [h1 mr rc m hlt]
    have h32 : (32 : Nat) ≤ 2 ^ rc := by
      calc (32 : Nat) = 2 ^ 5 := by norm_num
        _ ≤ 2 ^ rc := Nat.pow_le_pow_right (by norm_num) h5
    have h60 : (60 : Nat) ≤ 3 * 2 ^ rc := by omega
    rw [Nat.min_eq_right h60]
  · intro mr rc m h
    simp only [handle_instance_event]
    rw [if_pos (by omega)]

/-- Witness for C7_backoff: the first backoff, a post-cap backoff, and the
give-up case at the default ceiling of 5. -/
theorem C7_backoff_witness :
    handle_instance_event 5 0 (.keepAliveError "e") =
      .retryAfter (min (3 * 2 ^ 0) 60) (0 + 1) ∧
    handle_instance_event 9 6 (.keepAliveError "e") = .retryAfter 60 (6 + 1) ∧
    handle_instance_event 5 5 (.keepAliveError "e") = .stop :=
  ⟨C7_backoff.1 5 0 "e" (by decide),
   C7_backoff.2.2.1 9 6 "e" (by decide) (by decide),
   C7_backoff.2.2.2 5 5 "e" (by decide)⟩

/-- Claim C5: within one attempt, a navigation timeout and a navigation-level
network error both end the attempt with a plain return (terminal for this
attempt, never the raised retry condition), whereas on a matched path a
spinner that fails to clear within the bound raises the distinct KeepAliveError
condition, which the outer loop answers with backoff and restart rather than
ordinary exit. -/
theorem C5_timeout_classification :
    (∀ (e : String) (pa : PageAttempt), pa.goto = .timeout →
      navigation_attempt e pa = .terminal "navigation timeout") ∧
    (∀ (e : String) (pa : PageAttempt) (m : String), pa.goto = .netError m →
      navigation_attempt e pa = .terminal "navigation network error") ∧
    (∀ (e : String) (pa : PageAttempt) (u : String), pa.goto = .ok u →
      pyContains u "accounts.google.com/v3/signin/identifier" = false →
      ¬ expectedPathOf e = "" →
      pyContains (extract_url_path u) (expectedPathOf e) = true →
      spinnerCleared pa.spinnerHiddenAt = false →
      navigation_attempt e pa = .raiseKeepAlive "spinner timeout") ∧
    (∀ (max_retries retry_count : Nat) (m : String),
      retry_count < max_retries →
      handle_instance_event max_retries retry_count (.keepAliveError m) =
        .retryAfter (min (base_delay * 2 ^ retry_count) 60) (retry_count + 1)) := by
  refine ⟨?_, ?_, ?_, ?_⟩
  · intro e pa h
    simp [navigation_attempt, h]
  · intro e pa m h
    simp [navigation_attempt, h]
  · intro e pa u hgoto hid hexp hmatch hspin
    simp only [navigation_attempt, hgoto]
    rw [if_neg (by simp [hid])]
    rw [if_pos ⟨hexp, hmatch⟩]
    rw [if_neg (by simp [hspin])]
  · intro mr rc m h
    simp only [handle_instance_event]
    rw [if_neg (by omega)]
    simp

/-- Witness for C5_timeout_classification: a concrete timeout, network error,
stuck spinner on a matched path, and the first backoff decision. -/
theorem C5_timeout_classification_witness :
    navigation_attempt "https://aistudio.google.com/apps"
      { goto := .timeout } = .terminal "navigation timeout" ∧
    navigation_attempt "https://aistudio.google.com/apps"
      { goto := .netError "net::ERR_CONNECTION_REFUSED" } =
      .terminal "navigation network error" ∧
    navigation_attempt "https://aistudio.google.com/apps"
      { goto := .ok "https://aistudio.google.com/apps" } =
      .raiseKeepAlive "spinner timeout" ∧
    handle_instance_event 5 0 (.keepAliveError "spinner timeout") =
      .retryAfter (min (base_delay * 2 ^ 0) 60) (0 + 1) :=
  ⟨C5_timeout_classification.1 _ _ rfl,
   C5_timeout_classification.2.1 _ _ "net::ERR_CONNECTION_REFUSED" rfl,
   C5_timeout_classification.2.2.1 _ _ "https://aistudio.google.com/apps" rfl
     (by decide) (by decide) (by decide) rfl,
   C5_timeout_classification.2.2.2 5 0 "spinner timeout" (by decide)⟩

/-- Running the keep-alive loop over a concatenated trace: if the first part
leaves the loop running with some counter, the run continues over the second
part from that counter. -/
theorem keep_alive_loop_append (ts : List KeepAliveTick) :
    ∀ (c c2 : Nat) (ts2 : List KeepAliveTick),
      keep_alive_loop c ts = .running c2 →
      keep_alive_loop c (ts ++ ts2) = keep_alive_loop c2 ts2 := by
  induction ts with
  | nil =>
    intro c c2 ts2 h
    simp only [keep_alive_loop] at h
    cases h
    simp
  | cons t ts ih =>
    intro c c2 ts2 h
    simp only [keep_alive_loop, List.cons_append] at h ⊢
    by_cases h1 : t.shutdownSet = true
    · simp [h1] at h
    · by_cases h2 : t.clickOk = true
      · simp only [h1, h2, if_neg, if_pos, Bool.not_true, not_false_iff,
          ite_false, ite_true, not_true, Bool.false_eq_true] at h ⊢
        by_cases h3 : c + 1 ≥ 360
        · rw [if_pos h3] at h ⊢
          by_cases h4 : validate_cookies_in_main_thread t.validationNav = true
          · rw [if_pos h4] at h ⊢
            exact ih 0 c2 ts2 h
          · rw [if_neg h4] at h
            cases h
        · rw [if_neg h3] at h ⊢
          exact ih (c + 1) c2 ts2 h
      · simp [h1, h2] at h

/-- A trace of successful, shutdown-free ticks short of the validation
threshold leaves the loop running, validation never consulted. -/
theorem keep_alive_loop_running (ts : List KeepAliveTick) :
    ∀ c : Nat, (∀ t ∈ ts, t.shutdownSet = false ∧ t.clickOk = true) →
      c + ts.length < 360 →
      keep_alive_loop c ts = .running (c + ts.length) := by
  induction ts with
  | nil =>
    intro c _ _
    simp [keep_alive_loop]
  | cons t ts ih =>
    intro c hall hlen
    obtain ⟨h1, h2⟩ := hall t (by simp)
    simp only [keep_alive_loop, h1, h2]
    have h3 : ¬ c + 1 ≥ 360 := by
      simp only [List.length_cons] at hlen
      omega
    rw [if_neg h3]
    rw [ih (c + 1) (fun x hx => hall x (List.mem_cons_of_mem t hx))
      (by simp only [List.length_cons] at hlen; omega)]
    have h5 : c + (t :: ts).length = c + 1 + ts.length := by
      simp only [List.length_cons]
      omega
    rw [h5]
    simp

/-- Claim C6: the out-of-band re-validation runs only when the interaction
counter reaches 360 (before that the loop keeps running regardless of what the
validation would see); a completed validation navigation reports invalid
exactly when the final URL is a sign-in path (identifier or account chooser);
a failed validation ends the loop through sys.exit(1), which the outer loop
answers by returning (not the backoff-retry path); a passed validation resets
the counter and the loop continues. -/
theorem C6_revalidation :
    (∀ u : String, validate_cookies_in_main_thread (.ok u) = false ↔
      (pyContains u "accounts.google.com/v3/signin/identifier" = true ∨
       pyContains u "accounts.google.com/v3/signin/accountchooser" = true)) ∧
    (∀ ts : List KeepAliveTick,
      (∀ t ∈ ts, t.shutdownSet = false ∧ t.clickOk = true) → ts.length < 360 →
      keep_alive_loop 0 ts = .running ts.length) ∧
    (∀ (ts : List KeepAliveTick) (t : KeepAliveTick), ts.length = 359 →
      (∀ x ∈ ts, x.shutdownSet = false ∧ x.clickOk = true) →
      t.shutdownSet = false → t.clickOk = true →
      validate_cookies_in_main_thread t.validationNav = false →
      keep_alive_loop 0 (ts ++ [t]) = .cookieFailure) ∧
    (∀ (ts rest : List KeepAliveTick) (t : KeepAliveTick), ts.length = 359 →
      (∀ x ∈ ts, x.shutdownSet = false ∧ x.clickOk = true) →
      t.shutdownSet = false → t.clickOk = true →
      validate_cookies_in_main_thread t.validationNav = true →
      keep_alive_loop 0 (ts ++ t :: rest) = keep_alive_loop 0 rest) ∧
    (∀ (max_retries retry_count : Nat) (code : Int),
      handle_instance_event max_retries retry_count (.systemExit code) = .stop) := by
  refine ⟨?_, ?_, ?_, ?_, fun _ _ _ => rfl⟩
  · intro u
    simp only [validate_cookies_in_main_thread]
    by_cases h1 : pyContains u "accounts.google.com/v3/signin/identifier" = true
    · simp [h1]
    · by_cases h2 : pyContains u "accounts.google.com/v3/signin/accountchooser" = true
      · simp [h1, h2]
      · simp [h1, h2]
  · intro ts hall hlen
    have := keep_alive_loop_running ts 0 hall (by omega)
    simpa using this
  · intro ts t hlen hall ht1 ht2 hval
    have hrun : keep_alive_loop 0 ts = .running 359 := by
      have := keep_alive_loop_running ts 0 hall (by omega)
      rw [this, Nat.zero_add, hlen]
    rw [keep_alive_loop_append ts 0 359 [t] hrun]
    simp [keep_alive_loop, ht1, ht2, hval]
  · intro ts rest t hlen hall ht1 ht2 hval
    have hrun : keep_alive_loop 0 ts = .running 359 := by
      have := keep_alive_loop_running ts 0 hall (by omega)
      rw [this, Nat.zero_add, hlen]
    rw [keep_alive_loop_append ts 0 359 (t :: rest) hrun]
    simp [keep_alive_loop, ht1, ht2, hval]

/-- Witness for C6_revalidation: 300 clean ticks leave the loop running; the
360th tick validating onto the identifier sign-in page exits with the fatal
cookie failure; a passing validation resets and continues; sys.exit maps to a
plain stop. -/
theorem C6_revalidation_witness :
    keep_alive_loop 0 (List.replicate 300 ({ } : KeepAliveTick)) =
      .running (List.replicate 300 ({ } : KeepAliveTick)).length ∧
    keep_alive_loop 0 (List.replicate 359 ({ } : KeepAliveTick) ++
      [{ validationNav :=
           .ok "https://accounts.google.com/v3/signin/identifier?hl=en" }]) =
      .cookieFailure ∧
    keep_alive_loop 0 (List.replicate 359 ({ } : KeepAliveTick) ++
      ({ validationNav := .ok "https://aistudio.google.com/apps" } :
        KeepAliveTick) :: []) = keep_alive_loop 0 [] ∧
    handle_instance_event 5 0 (.systemExit 1) = .stop :=
  ⟨C6_revalidation.2.1 _
      (fun x hx => by rw [List.eq_of_mem_replicate hx]; exact ⟨rfl, rfl⟩)
      (by rw [List.length_replicate]; omega),
   C6_revalidation.2.2.1 _ _ (List.length_replicate 359 { })
      (fun x hx => by rw [List.eq_of_mem_replicate hx]; exact ⟨rfl, rfl⟩)
      rfl rfl (by decide),
   C6_revalidation.2.2.2.1 _ [] _ (List.length_replicate 359 { })
      (fun x hx => by rw [List.eq_of_mem_replicate hx]; exact ⟨rfl, rfl⟩)
      rfl rfl (by decide),
   C6_revalidation.2.2.2.2 5 0 1⟩

/-- Value of a digit list read most-significant-first. -/
def valOfDigits (l : List Char) : Nat :=
  l.foldl (fun a c => a * 10 + digitVal c) 0

/-- Digit round trip below 10. -/
theorem digitVal_digitChar (n : Nat) (h : n < 10) :
    digitVal (digitChar n) = n := by
  interval_cases n <;> decide

/-- Folding from an arbitrary accumulator shifts the result. -/
theorem valOfDigits_foldl (l : List Char) :
    ∀ a : Nat, l.foldl (fun a c => a * 10 + digitVal c) a =
      a * 10 ^ l.length + valOfDigits l := by
  induction l with
  | nil => intro a; simp [valOfDigits]
  | cons c l ih =>
    intro a
    simp only [List.foldl_cons, valOfDigits, List.length_cons]
    rw [ih (a * 10 + digitVal c), ih (0 * 10 + digitVal c)]
    ring

/-- The decimal digits of n evaluate back to n. -/
theorem valOfDigits_natDigitsAux :
    ∀ (fuel n : Nat), n < fuel → valOfDigits (natDigitsAux fuel n) = n := by
  intro fuel
  induction fuel with
  | zero => intro n h; omega
  | succ fuel ih =>
    intro n h
    unfold natDigitsAux
    by_cases h10 : n < 10
    · rw [if_pos h10]
      simp only [valOfDigits, List.foldl_cons, List.foldl_nil, Nat.zero_mul,
        Nat.zero_add]
      exact digitVal_digitChar n h10
    · rw [if_neg h10]
      unfold valOfDigits
      rw [List.foldl_append]
      have hdiv : n / 10 < fuel := by omega
      have h1 : (natDigitsAux fuel (n / 10)).foldl
          (fun a c => a * 10 + digitVal c) 0 = n / 10 := ih (n / 10) hdiv
      rw [h1]
      simp only [List.foldl_cons, List.foldl_nil]
      rw [digitVal_digitChar (n % 10) (Nat.mod_lt _ (by norm_num))]
      omega

/-- Decimal rendering is injective. -/
theorem natToString_inj (m n : Nat) (h : natToString m = natToString n) :
    m = n := by
  have hd : natDigitsAux (m + 1) m = natDigitsAux (n + 1) n :=
    congrArg String.data h
  have hm := valOfDigits_natDigitsAux (m + 1) m (by omega)
  have hn := valOfDigits_natDigitsAux (n + 1) n (by omega)
  rw [← hm, ← hn, hd]

/-- The probed environment names are pairwise distinct. -/
theorem userCookieName_inj (m n : Nat) (h : userCookieName m = userCookieName n) :
    m = n := by
  unfold userCookieName at h
  have hd := congrArg String.data h
  have hd2 : "USER_COOKIE_".data ++ (natToString m).data =
      "USER_COOKIE_".data ++ (natToString n).data := hd
  have hd3 := List.append_cancel_left hd2
  exact natToString_inj m n (congrArg String.mk hd3)

/-- A successful association-list lookup means the key occurs among the keys. -/
theorem lookup_some_mem_keys {α β : Type} [BEq α] (l : List (α × β)) (k : α)
    (v : β) (h : l.lookup k = some v) : ∃ p ∈ l, (k == p.1) = true := by
  induction l with
  | nil => cases h
  | cons hd tl ih =>
    rw [List.lookup] at h
    by_cases heq : (k == hd.1) = true
    · exact ⟨hd, by simp, heq⟩
    · rw [Bool.not_eq_true] at heq
      simp only [heq] at h
      obtain ⟨p, hp, hkp⟩ := ih h
      exact ⟨p, by simp [hp], hkp⟩

/-- Shape of the environment-probe loop: starting at any index with any fuel,
the result is a contiguous run of sources from the start index, every probed
index in the run has a non-empty cleaned value, and if fuel remains the index
just past the run has an empty cleaned value. -/
theorem probeEnvSources_shape (sys : Sys) :
    ∀ fuel start : Nat, ∃ m,
      probeEnvSources sys fuel start = (List.range' start m).map mkEnvSource ∧
      m ≤ fuel ∧
      (∀ j, start ≤ j → j < start + m →
        ¬ clean_env_value (sys.vars.lookup (userCookieName j)) = "") ∧
      (m < fuel →
        clean_env_value (sys.vars.lookup (userCookieName (start + m))) = "") := by
  intro fuel
  induction fuel with
  | zero =>
    intro start
    exact ⟨0, rfl, Nat.le_refl 0, fun j h1 h2 => by omega, fun h => by omega⟩
  | succ fuel ih =>
    intro start
    by_cases h : clean_env_value (sys.vars.lookup (userCookieName start)) = ""
    · refine ⟨0, ?_, by omega, fun j h1 h2 => by omega, fun _ => ?_⟩
      · unfold probeEnvSources
        rw [if_pos h]
        rfl
      · simpa using h
    · obtain ⟨m, hm1, hm2, hm3, hm4⟩ := ih (start + 1)
      refine ⟨m + 1, ?_, by omega, ?_, ?_⟩
      · unfold probeEnvSources
        rw [if_neg h, hm1, List.range'_succ]
        rfl
      · intro j h1 h2
        rcases Nat.eq_or_lt_of_le h1 with heq | hlt
        · rw [← heq]
          exact h
        · exact hm3 j hlt (by omega)
      · intro hlt
        have heq : start + (m + 1) = start + 1 + m := by omega
        rw [heq]
        exact hm4 (by omega)

/-- With fuel one more than the number of environment entries, the probe always
stops at an index whose cleaned value is empty: the run cannot exhaust the
fuel, because each probed name in the run is a distinct key of the finite
environment. -/
theorem probeEnvSources_full (sys : Sys) :
    ∃ m,
      probeEnvSources sys (sys.vars.length + 1) 1 =
        (List.range' 1 m).map mkEnvSource ∧
      (∀ j, 1 ≤ j → j < 1 + m →
        ¬ clean_env_value (sys.vars.lookup (userCookieName j)) = "") ∧
      clean_env_value (sys.vars.lookup (userCookieName (1 + m))) = "" := by
  obtain ⟨m, h1, h2, h3, h4⟩ := probeEnvSources_shape sys (sys.vars.length + 1) 1
  refine ⟨m, h1, h3, ?_⟩
  by_cases hlt : m < sys.vars.length + 1
  · exact h4 hlt
  · exfalso
    have hsub : ((List.range' 1 m).map userCookieName) ⊆
        sys.vars.map Prod.fst := by
      intro x hx
      obtain ⟨j, hj, rfl⟩ := List.mem_map.mp hx
      rw [List.mem_range'_1] at hj
      have hne := h3 j hj.1 hj.2
      cases hlk : sys.vars.lookup (userCookieName j) with
      | none =>
        exfalso
        apply hne
        rw [hlk]
        rfl
      | some v =>
        obtain ⟨p, hp, hkp⟩ := lookup_some_mem_keys sys.vars (userCookieName j) v hlk
        rw [List.mem_map]
        refine ⟨p, hp, ?_⟩
        have := eq_of_beq hkp
        exact this.symm
    have hnd : ((List.range' 1 m).map userCookieName).Nodup := by
      refine List.Nodup.map ?_ (List.nodup_range' _ _ _ (by norm_num))
      intro a b hab
      exact userCookieName_inj a b hab
    have hsp := hnd.subperm hsub
    have hlen := hsp.length_le
    rw [List.length_map, List.length_range', List.length_map] at hlen
    omega

/-- Claim C8: on a fresh manager, enumeration returns all eligible files (lower-
cased name ending in .json, directory-listing order) first, then the
environment sources USER_COOKIE_1 .. USER_COOKIE_m for a contiguous run of
indices whose cleaned values are non-empty, with the value at index m + 1
empty (the probe stops at the first missing or empty index), so any index with
an empty value bounds the run: no source at or past it is enumerated; and the
enumeration is idempotent in-process: a second call, even against a changed
world, returns the identical cached list and state without re-scanning. -/
theorem C8_enumeration :
    (∀ (sys : Sys) (st : CookieManagerState), st.detected_sources = none →
      ∃ m,
        (detect_all_sources sys st).1 =
          scanFileSources sys ++ (List.range' 1 m).map mkEnvSource ∧
        (∀ j, 1 ≤ j → j ≤ m →
          ¬ clean_env_value (sys.vars.lookup (userCookieName j)) = "") ∧
        clean_env_value (sys.vars.lookup (userCookieName (m + 1))) = "" ∧
        (∀ k, 1 ≤ k →
          clean_env_value (sys.vars.lookup (userCookieName k)) = "" → m < k)) ∧
    (∀ (sys sys2 : Sys) (st : CookieManagerState),
      detect_all_sources sys2 (detect_all_sources sys st).2 =
        ((detect_all_sources sys st).1, (detect_all_sources sys st).2)) := by
  constructor
  · intro sys st h
    obtain ⟨m, h1, h2, h3⟩ := probeEnvSources_full sys
    refine ⟨m, ?_, fun j hj1 hj2 => h2 j hj1 (by omega), ?_, ?_⟩
    · simp only [detect_all_sources, h]
      rw [h1]
    · rw [show m + 1 = 1 + m by omega]
      exact h3
    · intro k hk hke
      by_contra hmk
      exact h2 k hk (by omega) hke
  · intro sys sys2 st
    cases h : st.detected_sources with
    | some sources => simp [detect_all_sources, h]
    | none => simp [detect_all_sources, h]

/-- A concrete world for exercising the enumeration: three directory entries
(two eligible by extension), an environment with USER_COOKIE_1 set and
USER_COOKIE_3 set but USER_COOKIE_2 missing. -/
def C8demoWorld : Sys :=
  { dirExists := true,
    files := [("b.JSON", "k=v"), ("note.txt", "k=v"), ("a.json", "k=v")],
    vars := [("USER_COOKIE_1", "k=v"), ("USER_COOKIE_3", "k=v")],
    jsonParse := fun _ => none }

/-- Witness for C8_enumeration on the concrete world: the claimed shape holds,
the second call returns the cached pair, and concretely the enumeration lists
the two eligible files in listing order followed only by USER_COOKIE_1 (the
gap at index 2 truncates; USER_COOKIE_3 is never enumerated). -/
theorem C8_enumeration_witness :
    (∃ m,
      (detect_all_sources C8demoWorld { }).1 =
        scanFileSources C8demoWorld ++ (List.range' 1 m).map mkEnvSource ∧
      (∀ j, 1 ≤ j → j ≤ m →
        ¬ clean_env_value (C8demoWorld.vars.lookup (userCookieName j)) = "") ∧
      clean_env_value (C8demoWorld.vars.lookup (userCookieName (m + 1))) = "" ∧
      (∀ k, 1 ≤ k →
        clean_env_value (C8demoWorld.vars.lookup (userCookieName k)) = "" →
        m < k)) ∧
    detect_all_sources C8demoWorld (detect_all_sources C8demoWorld { }).2 =
      ((detect_all_sources C8demoWorld { }).1,
       (detect_all_sources C8demoWorld { }).2) ∧
    (detect_all_sources C8demoWorld { }).1 =
      [mkFileSource "b.JSON", mkFileSource "a.json", mkEnvSource 1] :=
  ⟨C8_enumeration.1 C8demoWorld { } rfl,
   C8_enumeration.2 C8demoWorld C8demoWorld { },
   by decide⟩
